import Mathlib

set_option maxRecDepth 8000
set_option maxHeartbeats 1600000

/-!
Verification development for `userreporter.py`: a shallow embedding of the
Bosch text-record parser (`parse_bosch_txt`), the HTML report renderer
(`generate_html`), and the client-side row state machine embedded in the
rendered document, together with theorems checking the natural-language
specification against this embedding.

Strings are modelled by Lean `String`; all string manipulation is done by
structurally recursive functions over `List Char` so that every definition
evaluates inside the kernel.  Python standard-library primitives used by the
source (`str.strip`, `str.replace`, `str.split`, `str.lower`, `str.isdigit`,
`html.escape`, `json.dumps`, and the two `re.sub` calls) are given explicit
executable models below; each model notes the Python behaviour it captures
(restricted to the ASCII character classes the report data uses, matching
CPython's behaviour on such inputs).
-/

/-- Characters treated as whitespace by Python `str.strip`/`str.split()` and
by the regex class `\s` (ASCII part): space, tab, newline, carriage return,
vertical tab, form feed. -/
def pySpace (c : Char) : Bool :=
  c == ' ' || c == '\t' || c == '\n' || c == '\r' || c == '\x0b' || c == '\x0c'

/-- ASCII lowercase letter, the regex class `[a-z]`. -/
def lowerAsc (c : Char) : Bool :=
  'a' ≤ c && c ≤ 'z'

/-- ASCII letter, the regex class `[a-zA-Z]`. -/
def letterAsc (c : Char) : Bool :=
  ('a' ≤ c && c ≤ 'z') || ('A' ≤ c && c ≤ 'Z')

/-- Regex word character `\w` (ASCII part): letter, digit or underscore;
used to model the word boundary `\b`. -/
def wordAsc (c : Char) : Bool :=
  letterAsc c || c.isDigit || c == '_'

/-- Python `str.lower` on one character (ASCII part). -/
def pyLowerChar (c : Char) : Char :=
  if 'A' ≤ c && c ≤ 'Z' then Char.ofNat (c.toNat + 32) else c

/-- Python `str.lower` (ASCII part). -/
def pyLower (s : String) : String :=
  ⟨s.data.map pyLowerChar⟩

/-- Python `str.isdigit`: nonempty and every character a digit (ASCII part). -/
def pyIsDigit (s : String) : Bool :=
  s.data ≠ [] && s.data.all Char.isDigit

/-- `startsWithL p l` tests whether the list `p` is an initial segment of `l`;
models Python `str.startswith` on the underlying characters. -/
def startsWithL : List Char → List Char → Bool
  | [], _ => true
  | _ :: _, [] => false
  | p :: ps, c :: cs => p == c && startsWithL ps cs

/-- Python `str.strip()` with no argument: drop leading and trailing
whitespace. -/
def pyStrip (s : String) : String :=
  ⟨((s.data.dropWhile pySpace).reverse.dropWhile pySpace).reverse⟩

/-- One fuel-indexed step list for Python `str.replace`: scan left to right,
replacing non-overlapping occurrences of `pat` by `rep`, resuming after the
replaced text.  The fuel starts at the length of the list and bounds the
number of scan positions, so it never runs out. -/
def pyReplaceFuel (pat rep : List Char) : Nat → List Char → List Char
  | 0, l => l
  | _ + 1, [] => []
  | f + 1, c :: rest =>
    if startsWithL pat (c :: rest) then
      rep ++ pyReplaceFuel pat rep f (List.drop (pat.length - 1) rest)
    else
      c :: pyReplaceFuel pat rep f rest

/-- Python `str.replace(pat, rep)` for a nonempty pattern (every use in the
source has a nonempty pattern; an empty pattern is returned unchanged). -/
def pyReplace (s pat rep : String) : String :=
  if pat.data = [] then s else ⟨pyReplaceFuel pat.data rep.data s.data.length s.data⟩

/-- Python `str.split(sep)` for a single-character separator: split at every
occurrence of `sep`, keeping empty pieces. -/
def splitOnChar (sep : Char) : List Char → List (List Char)
  | [] => [[]]
  | c :: rest =>
    if c == sep then [] :: splitOnChar sep rest
    else
      match splitOnChar sep rest with
      | t :: ts => (c :: t) :: ts
      | [] => [[c]]

/-- Whitespace-run tokenizer, fuel-indexed (fuel starts at the length of the
list): models Python `str.split()` with no argument, which returns the
maximal runs of non-whitespace characters. -/
def tokensFuel : Nat → List Char → List (List Char)
  | 0, _ => []
  | f + 1, l =>
    let l' := l.dropWhile pySpace
    if l' = [] then []
    else l'.takeWhile (fun c => !pySpace c) :: tokensFuel f (l'.dropWhile (fun c => !pySpace c))

/-- Interleave a single space between token lists: models `" ".join(...)`. -/
def joinSpace : List (List Char) → List Char
  | [] => []
  | [t] => t
  | t :: ts => t ++ ' ' :: joinSpace ts

/-- `" ".join(s.split())`: normalize all whitespace runs to single spaces and
strip the ends. -/
def normSpaces (s : String) : String :=
  ⟨joinSpace (tokensFuel s.data.length s.data)⟩

/-- First `re.sub` pass of the name repair,
`re.sub(r'([a-z])\s+([a-z])', r'\1\2', raw_name)`: scanning left to right,
a lowercase letter, a nonempty whitespace run, and a lowercase letter are
collapsed into the two adjacent letters; scanning resumes after the second
letter (matches are non-overlapping, as for `re.sub`).  Fuel-indexed with
fuel starting at the length of the list. -/
def sub1Fuel : Nat → List Char → List Char
  | 0, l => l
  | _ + 1, [] => []
  | f + 1, a :: rest =>
    if lowerAsc a then
      match rest.dropWhile pySpace with
      | b :: rest2 =>
        if rest.takeWhile pySpace ≠ [] && lowerAsc b then
          a :: b :: sub1Fuel f rest2
        else
          a :: sub1Fuel f rest
      | [] => a :: sub1Fuel f rest
    else
      a :: sub1Fuel f rest

/-- `True` when the scan position is at a word boundary `\b`: end of input or
a non-word character. -/
def boundaryAt : List Char → Bool
  | [] => true
  | c :: _ => !wordAsc c

/-- Second `re.sub` pass of the name repair,
`re.sub(r'([a-zA-Z])\s+([a-z]{1,2}\b)', r'\1\2', user_name)`: a letter, a
nonempty whitespace run, and one or two lowercase letters ending at a word
boundary are collapsed (the greedy two-letter alternative is tried first,
as the regex engine does); scanning resumes after the matched letters.
Fuel-indexed with fuel starting at the length of the list. -/
def sub2Fuel : Nat → List Char → List Char
  | 0, l => l
  | _ + 1, [] => []
  | f + 1, a :: rest =>
    if letterAsc a && rest.takeWhile pySpace ≠ [] then
      match rest.dropWhile pySpace with
      | b :: c :: rest2 =>
        if lowerAsc b && lowerAsc c && boundaryAt rest2 then
          a :: b :: c :: sub2Fuel f rest2
        else if lowerAsc b && !wordAsc c then
          a :: b :: sub2Fuel f (c :: rest2)
        else
          a :: sub2Fuel f rest
      | [b] =>
        if lowerAsc b then a :: [b]
        else a :: sub2Fuel f rest
      | [] => a :: sub2Fuel f rest
    else
      a :: sub2Fuel f rest

/-- The full name repair applied to field 1 (source lines 29-37): the two
`re.sub` passes followed by whitespace normalization. -/
def repairName (raw : String) : String :=
  normSpaces ⟨sub2Fuel raw.data.length (sub1Fuel raw.data.length raw.data)⟩

/-- A parsed record as built by `parse_bosch_txt`: the Python value is the
three-element list `[user_name, passcode, auth_val]`. -/
structure ParsedRecord where
  name : String
  passcode : String
  auth : String
deriving DecidableEq, Repr

/-- Line normalization (source line 19):
`line.strip().replace(" ,", ",").replace(", ", ",")`. -/
def normalizeLine (line : String) : String :=
  pyReplace (pyReplace (pyStrip line) " ," ",") ", " ","

/-- Comma split with per-part strip (source line 21):
`[p.strip() for p in line.split(",")]`. -/
def partsOf (line : String) : List String :=
  (splitOnChar ',' (normalizeLine line).data).map (fun l => pyStrip ⟨l⟩)

/-- The qualifying test of the authority scan (source line 44):
`val != "0" and val.lower() != "no"`. -/
def authQual (v : String) : Bool :=
  v != "0" && pyLower v != "no"

/-- Authority scan (source lines 42-48): the first flag, counting from
`start`, that is neither `"0"` nor case-insensitively `"no"` gives the level
`A<index>`; otherwise the level is the string `"None"`. -/
def firstAuth : List String → Nat → String
  | [], _ => "None"
  | v :: rest, idx =>
    if authQual v then "A" ++ toString idx
    else firstAuth rest (idx + 1)

/-- Authority level of a parts list, `parts[5:13]` scanned from index 1
(source line 41). -/
def authFromParts (parts : List String) : String :=
  firstAuth ((parts.drop 5).take 8) 1

/-- Specification-worded authority level (§4.1 of the spec): the level is
`A(i)` for the smallest 1-based index `i` among the up-to-eight authority
flag columns (fields 5 through 12) whose value is neither `"0"` nor a
case-insensitive `"no"`, and `"None"` when no column qualifies.  Used only
to compare against `authFromParts`, which is translated from the code. -/
def specAuthFromParts (parts : List String) : String :=
  match ((parts.drop 5).take 8).findIdx? authQual with
  | some k => "A" ++ toString (k + 1)
  | none => "None"

/-- Placeholder-name test (source lines 54-55):
`user_name.startswith("User ") and user_name[5:].replace(" ", "").isdigit()`. -/
def isUserStar (name : String) : Bool :=
  startsWithL "User ".data name.data && pyIsDigit (pyReplace ⟨name.data.drop 5⟩ " " "")

/-- Per-line candidate extraction of `parse_bosch_txt` (source lines 19-58):
`some (id, record)` when the line is a candidate record that survives the
placeholder filter, `none` when the line is ignored or filtered out.
Deduplication happens outside this function. -/
def lineToCandidate (line : String) : Option (String × ParsedRecord) :=
  if startsWithL "User ".data (normalizeLine line).data then
    if (partsOf line).length > 6 then
      if !isUserStar (repairName ((partsOf line).getD 1 "")) ||
          (pyReplace ((partsOf line).getD 2 "") " " "" != "" &&
           pyReplace ((partsOf line).getD 2 "") " " "" != "0") then
        some (pyReplace ((partsOf line).headD "") "User " "",
          ⟨repairName ((partsOf line).getD 1 ""),
           pyReplace ((partsOf line).getD 2 "") " " "",
           authFromParts (partsOf line)⟩)
      else
        none
    else none
  else none

/-- Conditional insertion into the `seen_users` association list (source
lines 60-61): append the pair unless its id is already present; the list
keeps insertion order like a Python dict. -/
def insertPair (seen : List (String × ParsedRecord)) (p : String × ParsedRecord) :
    List (String × ParsedRecord) :=
  if seen.any (fun q => q.1 == p.1) then seen else seen ++ [p]

/-- One step of the parse loop: a surviving candidate is inserted (source
lines 59-61); an ignored or filtered line leaves the state unchanged. -/
def parseStep (seen : List (String × ParsedRecord)) (line : String) :
    List (String × ParsedRecord) :=
  match lineToCandidate line with
  | none => seen
  | some p => insertPair seen p

/-- The parse of a list of input lines: fold the per-line step over the lines
and return the record values in insertion order, modelling
`list(seen_users.values())` (source line 64). -/
def parseLines (lines : List String) : List ParsedRecord :=
  (lines.foldl parseStep []).map Prod.snd

/-- `parse_bosch_txt` (source lines 11-64).  The file system is modelled by
an `Option (List String)`: `none` when the path does not reference a
readable regular file (the code's `os.path.isfile` guard, upon which it
raises `ValueError("Invalid file path")`), `some lines` when it does, with
`lines` the decoded lines of the file (`errors="ignore"` makes decoding
total, so reading is modelled by the line list itself). -/
def parse_bosch_txt : Option (List String) → Except String (List ParsedRecord)
  | none => .error "Invalid file path"
  | some lines => .ok (parseLines lines)

/-- First-occurrence-wins deduplication on an association list, written in
the discard-later-duplicates form: keep the head and delete every later
pair with the same key before recursing. -/
def dedupFirst : List (String × ParsedRecord) → List (String × ParsedRecord)
  | [] => []
  | p :: rest => p :: dedupFirst (rest.filter (fun q => q.1 != p.1))
termination_by l => l.length
decreasing_by
  simp only [List.length_cons]
  exact Nat.lt_succ_of_le (List.length_filter_le _ _)

/-- `html.escape(s)` (Python standard library, `quote=True` default) on one
character: the five sequential replaces performed by `html.escape`
(`&`, `<`, `>`, `"`, `'`) amount to this character-wise map, because no
replacement output contains a character replaced by a later pass. -/
def escChar (c : Char) : List Char :=
  if c == '&' then "&amp;".data
  else if c == '<' then "&lt;".data
  else if c == '>' then "&gt;".data
  else if c == '"' then "&quot;".data
  else if c == '\'' then "&#x27;".data
  else [c]

/-- Character-wise extension of `escChar` to a character list. -/
def escapeChars : List Char → List Char
  | [] => []
  | c :: rest => escChar c ++ escapeChars rest

/-- `html.escape` with default `quote=True`, as used at source lines 124-125. -/
def html_escape (s : String) : String :=
  ⟨escapeChars s.data⟩

/-- Lowercase hexadecimal digit character for `n < 16`. -/
def hexDigit (n : Nat) : Char :=
  if n < 10 then Char.ofNat ('0'.toNat + n) else Char.ofNat ('a'.toNat + (n - 10))

/-- A JSON `\uXXXX` escape for a 16-bit code unit. -/
def uEsc (n : Nat) : List Char :=
  '\\' :: 'u' :: [hexDigit (n / 4096 % 16), hexDigit (n / 256 % 16), hexDigit (n / 16 % 16), hexDigit (n % 16)]

/-- `json.dumps` string-body escaping (Python standard library, default
`ensure_ascii=True`) on one character: backslash, double quote and the five
short control escapes use their two-character forms; every other character
outside the printable ASCII range `0x20..0x7e` becomes `\uXXXX` (a surrogate
pair above `0xFFFF`); printable ASCII is passed through. -/
def jsonEscChar (c : Char) : List Char :=
  if c == '\\' then ['\\', '\\']
  else if c == '"' then ['\\', '"']
  else if c == '\x08' then ['\\', 'b']
  else if c == '\x0c' then ['\\', 'f']
  else if c == '\n' then ['\\', 'n']
  else if c == '\r' then ['\\', 'r']
  else if c == '\t' then ['\\', 't']
  else if 0x20 ≤ c.toNat && c.toNat ≤ 0x7e then [c]
  else if c.toNat < 0x10000 then uEsc c.toNat
  else uEsc (0xD800 + (c.toNat - 0x10000) / 0x400) ++ uEsc (0xDC00 + (c.toNat - 0x10000) % 0x400)

/-- Character-wise extension of `jsonEscChar`. -/
def jsonEscapeChars : List Char → List Char
  | [] => []
  | c :: rest => jsonEscChar c ++ jsonEscapeChars rest

/-- `json.dumps` on a string (Python standard library, default options), as
used at source line 788. -/
def jsonDumps (s : String) : String :=
  "\"" ++ String.mk (jsonEscapeChars s.data) ++ "\""

/-- Auth display value of a row (source lines 110-114): the digit of `"A1"`
through `"A8"`, and `"None"` for anything else. -/
def authNumOf (authValue : String) : String :=
  if startsWithL "A".data authValue.data && authValue.data.length == 2
      && (authValue.data.getD 1 ' ').isDigit then
    ⟨[authValue.data.getD 1 ' ']⟩
  else
    "None"

/-- The `None` option markup of the authority dropdown (source line 117). -/
def noneOption (authNum : String) : String :=
  "<option value=\"None\"" ++ (if authNum == "None" then " selected" else "") ++ ">None</option>"

/-- The `A<level>` option markup of the authority dropdown (source
lines 118-120). -/
def levelOption (authNum : String) (level : Nat) : String :=
  "<option value=\"A" ++ toString level ++ "\"" ++
    (if toString level == authNum then " selected" else "") ++
    ">A" ++ toString level ++ "</option>"

/-- `''.join(auth_options)`: the `None` option followed by the options for
levels 1 through 8. -/
def authOptionsJoined (authNum : String) : String :=
  String.join (noneOption authNum :: (List.range 8).map (fun k => levelOption authNum (k + 1)))
/-- generate_html template: literal text from the start of the document up to the logo interpolation point (source lines 148-732). -/
def seg0 : String :=
  "<!DOCTYPE html>\n<html>\n<head>\n<meta charset=\"UTF-8\">\n<meta name=\"viewport\" content=\"width=device-width, initia" ++
  "l-scale=1.0\">\n<meta http-equiv=\"Content-Security-Policy\" content=\"default-src 'self' data:; script-src 'unsafe" ++
  "-inline'; style-src 'unsafe-inline';\">\n<title>Security System Passcode Manager</title>\n<style>\n* \x7b\n    margin:" ++
  " 0;\n    padding: 0;\n    box-sizing: border-box;\n\x7d\n\nbody \x7b\n    font-family: 'Inter', -apple-system, BlinkMacSys" ++
  "temFont, 'Segoe UI', Roboto, sans-serif;\n    background: #0a0e27;\n    min-height: 100vh;\n    color: #64748b;\n\x7d" ++
  "\n\n/* Login Screen */\n#loginDiv \x7b\n    background: #ffffff;\n    border-radius: 8px;\n    box-shadow: 0 4px 6px rg" ++
  "ba(0, 0, 0, 0.07);\n    padding: 48px;\n    max-width: 420px;\n    margin: 120px auto;\n    border: 1px solid #e2e" ++
  "8f0;\n\x7d\n\n.login-header \x7b\n    text-align: center;\n    margin-bottom: 32px;\n\x7d\n\n.security-badge \x7b\n    width: 48px;" ++
  "\n    height: 48px;\n    background: #0f172a;\n    border-radius: 12px;\n    display: flex;\n    align-items: cente" ++
  "r;\n    justify-content: center;\n    margin: 0 auto 16px;\n\x7d\n\n.security-badge::before \x7b\n    content: \"\";\n    wid" ++
  "th: 24px;\n    height: 24px;\n    border: 3px solid #3b82f6;\n    border-radius: 50%;\n    border-top-color: trans" ++
  "parent;\n\x7d\n\n#loginDiv h2 \x7b\n    color: #0f172a;\n    font-size: 24px;\n    font-weight: 600;\n    letter-spacing: -" ++
  "0.025em;\n\x7d\n\n.login-subtitle \x7b\n    color: #64748b;\n    font-size: 14px;\n    margin-top: 8px;\n\x7d\n\n#pwdInput \x7b\n   " ++
  " width: 100%;\n    padding: 12px 16px;\n    border: 1px solid #e2e8f0;\n    border-radius: 6px;\n    font-size: 15" ++
  "px;\n    margin-bottom: 24px;\n    transition: all 0.2s;\n    background: #f8fafc;\n\x7d\n\n#pwdInput:focus \x7b\n    outli" ++
  "ne: none;\n    border-color: #3b82f6;\n    background: #ffffff;\n    box-shadow: 0 0 0 3px rgba(59, 130, 246, 0.1" ++
  ");\n\x7d\n\n.submit-btn \x7b\n    background: #0f172a;\n    color: white;\n    border: none;\n    padding: 12px 24px;\n    b" ++
  "order-radius: 6px;\n    font-size: 15px;\n    font-weight: 500;\n    cursor: pointer;\n    transition: all 0.2s;\n " ++
  "   width: 100%;\n\x7d\n\n.submit-btn:hover \x7b\n    background: #1e293b;\n    transform: translateY(-1px);\n    box-shado" ++
  "w: 0 4px 12px rgba(0, 0, 0, 0.15);\n\x7d\n\n/* Main Content */\n#mainContent \x7b\n    background: #ffffff;\n    min-heigh" ++
  "t: 100vh;\n    padding: 0;\n\x7d\n\n.app-header \x7b\n    background: #0f172a;\n    padding: 24px 32px;\n    border-bottom:" ++
  " 1px solid #1e293b;\n\x7d\n\n.header-content \x7b\n    max-width: 1400px;\n    margin: 0 auto;\n    display: flex;\n    jus" ++
  "tify-content: space-between;\n    align-items: center;\n\x7d\n\n.header-left \x7b\n    display: flex;\n    align-items: ce" ++
  "nter;\n    gap: 24px;\n\x7d\n\n.header-logo img \x7b\n    max-height: 40px;\n    height: auto;\n\x7d\n\n.app-title \x7b\n    color: " ++
  "#ffffff;\n    font-size: 20px;\n    font-weight: 600;\n    letter-spacing: -0.025em;\n\x7d\n\n.header-stats \x7b\n    displ" ++
  "ay: flex;\n    gap: 32px;\n\x7d\n\n.stat-item \x7b\n    color: #94a3b8;\n    font-size: 14px;\n\x7d\n\n.stat-value \x7b\n    color: " ++
  "#ffffff;\n    font-weight: 600;\n    margin-left: 8px;\n\x7d\n\n.main-container \x7b\n    max-width: 1400px;\n    margin: 0" ++
  " auto;\n    padding: 32px;\n\x7d\n\n/* Action Bar */\n.action-bar \x7b\n    background: #f8fafc;\n    border: 1px solid #e2" ++
  "e8f0;\n    border-radius: 8px;\n    padding: 20px 24px;\n    margin-bottom: 24px;\n    display: flex;\n    justify-" ++
  "content: space-between;\n    align-items: center;\n\x7d\n\n.action-buttons \x7b\n    display: flex;\n    gap: 12px;\n\x7d\n\n.ac" ++
  "tion-btn \x7b\n    background: #ffffff;\n    color: #475569;\n    border: 1px solid #e2e8f0;\n    padding: 8px 16px;\n" ++
  "    border-radius: 6px;\n    font-size: 14px;\n    font-weight: 500;\n    cursor: pointer;\n    transition: all 0." ++
  "2s;\n    display: flex;\n    align-items: center;\n    gap: 8px;\n\x7d\n\n.action-btn:hover \x7b\n    background: #f1f5f9;\n" ++
  "    border-color: #cbd5e1;\n\x7d\n\n.action-btn.primary \x7b\n    background: #3b82f6;\n    color: white;\n    border-colo" ++
  "r: #3b82f6;\n\x7d\n\n.action-btn.primary:hover \x7b\n    background: #2563eb;\n    border-color: #2563eb;\n\x7d\n\n/* Instructi" ++
  "ons Indicator */\n.instructions-indicator \x7b\n    position: relative;\n    display: inline-flex;\n    align-items: " ++
  "center;\n    gap: 8px;\n    margin-left: auto;\n    margin-right: 16px;\n\x7d\n\n.help-icon \x7b\n    width: 20px;\n    heig" ++
  "ht: 20px;\n    background: #3b82f6;\n    color: white;\n    border-radius: 50%;\n    display: flex;\n    align-item" ++
  "s: center;\n    justify-content: center;\n    font-size: 14px;\n    font-weight: bold;\n    cursor: help;\n\x7d\n\n.help" ++
  "-text \x7b\n    color: #64748b;\n    font-size: 14px;\n    font-weight: 500;\n\x7d\n\n.instructions-tooltip \x7b\n    position" ++
  ": absolute;\n    top: 100%;\n    right: 0;\n    margin-top: 8px;\n    background: #0f172a;\n    color: white;\n    p" ++
  "adding: 16px;\n    border-radius: 8px;\n    box-shadow: 0 10px 25px rgba(0, 0, 0, 0.2);\n    width: 320px;\n    z-" ++
  "index: 1000;\n    opacity: 0;\n    visibility: hidden;\n    transition: opacity 0.3s, visibility 0.3s;\n    font-s" ++
  "ize: 13px;\n    line-height: 1.6;\n\x7d\n\n.instructions-indicator:hover .instructions-tooltip \x7b\n    opacity: 1;\n    " ++
  "visibility: visible;\n\x7d\n\n.instructions-tooltip::before \x7b\n    content: \"\";\n    position: absolute;\n    bottom: 1" ++
  "00%;\n    right: 20px;\n    border-width: 8px;\n    border-style: solid;\n    border-color: transparent transparen" ++
  "t #0f172a transparent;\n\x7d\n\n.instructions-tooltip h4 \x7b\n    margin: 0 0 12px 0;\n    font-size: 14px;\n    font-wei" ++
  "ght: 600;\n    color: #f1f5f9;\n\x7d\n\n.instructions-tooltip ul \x7b\n    margin: 0;\n    padding-left: 20px;\n    list-st" ++
  "yle: none;\n\x7d\n\n.instructions-tooltip li \x7b\n    margin-bottom: 8px;\n    position: relative;\n    padding-left: 16p" ++
  "x;\n\x7d\n\n.instructions-tooltip li::before \x7b\n    content: \"•\";\n    position: absolute;\n    left: 0;\n    color: #3b" ++
  "82f6;\n\x7d\n\n/* Table Styles */\n.table-container \x7b\n    background: #ffffff;\n    border: 1px solid #e2e8f0;\n    bor" ++
  "der-radius: 8px;\n    overflow: hidden;\n\x7d\n\ntable \x7b\n    width: 100%;\n    border-collapse: collapse;\n\x7d\n\nthead \x7b\n " ++
  "   background: #f8fafc;\n    border-bottom: 1px solid #e2e8f0;\n\x7d\n\nth \x7b\n    padding: 12px 24px;\n    text-align: " ++
  "left;\n    font-weight: 500;\n    font-size: 12px;\n    text-transform: uppercase;\n    letter-spacing: 0.05em;\n  " ++
  "  color: #64748b;\n\x7d\n\ntd \x7b\n    padding: 16px 24px;\n    border-bottom: 1px solid #f1f5f9;\n    font-size: 14px;\n " ++
  "   color: #0f172a;\n\x7d\n\ntr:last-child td \x7b\n    border-bottom: none;\n\x7d\n\ntr:hover \x7b\n    background-color: #f8fafc;" ++
  "\n\x7d\n\n.editable-cell \x7b\n    position: relative;\n    cursor: text;\n    transition: all 0.2s;\n\x7d\n\n.editable-cell:foc" ++
  "us \x7b\n    outline: none;\n    background: #f0f9ff;\n    box-shadow: inset 0 0 0 2px #3b82f6;\n\x7d\n\n.passcode-cell \x7b\n" ++
  "    font-family: 'Monaco', 'Courier New', monospace;\n    letter-spacing: 0.05em;\n\x7d\n\n.auth-cell \x7b\n    font-weig" ++
  "ht: 500;\n    color: #3b82f6;\n\x7d\n\n.auth-select \x7b\n    width: 100%;\n    padding: 4px 8px;\n    border: 1px solid #e" ++
  "2e8f0;\n    border-radius: 4px;\n    background: white;\n    color: #3b82f6;\n    font-size: 14px;\n    font-weight" ++
  ": 500;\n    cursor: pointer;\n    transition: all 0.2s;\n\x7d\n\n.auth-select:focus \x7b\n    outline: none;\n    border-co" ++
  "lor: #3b82f6;\n    box-shadow: 0 0 0 3px rgba(59, 130, 246, 0.1);\n\x7d\n\n.auth-select:hover \x7b\n    border-color: #cb" ++
  "d5e1;\n\x7d\n\n.deleted .auth-select \x7b\n    pointer-events: none;\n    opacity: 0.5;\n    background: #f8f8f8;\n\x7d\n\n.acti" ++
  "on-cell \x7b\n    text-align: right;\n\x7d\n\n/* Status Classes */\n.modified \x7b\n    background-color: #fef3c7;\n\x7d\n\n.delete" ++
  "d \x7b\n    background-color: #fef2f2;\n    position: relative;\n\x7d\n\n.deleted::after \x7b\n    content: \"DELETED\";\n    po" ++
  "sition: absolute;\n    top: 50%;\n    right: 150px;\n    transform: translateY(-50%);\n    background: #dc2626;\n  " ++
  "  color: white;\n    font-size: 10px;\n    padding: 2px 8px;\n    border-radius: 3px;\n    font-weight: 600;\n    l" ++
  "etter-spacing: 0.05em;\n\x7d\n\n.deleted td \x7b\n    position: relative;\n    color: #991b1b;\n    opacity: 0.85;\n\x7d\n\n.del" ++
  "eted td::after \x7b\n    content: \"\";\n    position: absolute;\n    left: 0;\n    top: 50%;\n    width: 100%;\n    heig" ++
  "ht: 1px;\n    background: #dc2626;\n    opacity: 0.3;\n\x7d\n\n.deleted .editable-cell \x7b\n    pointer-events: none;\n   " ++
  " cursor: not-allowed;\n\x7d\n\n.deleted .delete-btn \x7b\n    background: #059669;\n    color: white;\n    border-color: #" ++
  "059669;\n\x7d\n\n.deleted .delete-btn:hover \x7b\n    background: #047857;\n    border-color: #047857;\n\x7d\n\n.restore-btn \x7b\n" ++
  "    background: #059669 !important;\n    color: white !important;\n    border-color: #059669 !important;\n\x7d\n\n.res" ++
  "tore-btn:hover \x7b\n    background: #047857 !important;\n    border-color: #047857 !important;\n\x7d\n\n.added \x7b\n    bac" ++
  "kground-color: #d1fae5;\n    animation: fadeIn 0.3s ease;\n\x7d\n\n@keyframes fadeIn \x7b\n    from \x7b opacity: 0; transfo" ++
  "rm: translateY(-10px); \x7d\n    to \x7b opacity: 1; transform: translateY(0); \x7d\n\x7d\n\n/* Delete Button */\n.delete-btn \x7b" ++
  "\n    background: transparent;\n    color: #ef4444;\n    border: 1px solid #fecaca;\n    padding: 6px 12px;\n    bo" ++
  "rder-radius: 4px;\n    font-size: 13px;\n    cursor: pointer;\n    transition: all 0.2s;\n    font-weight: 500;\n\x7d\n" ++
  "\n.delete-btn:hover \x7b\n    background: #fef2f2;\n    border-color: #ef4444;\n\x7d\n\n/* Pagination */\n.pagination \x7b\n   " ++
  " margin-top: 24px;\n    display: flex;\n    justify-content: center;\n    gap: 8px;\n    padding-top: 24px;\n    bo" ++
  "rder-top: 1px solid #e2e8f0;\n\x7d\n\n.pagination button \x7b\n    min-width: 40px;\n    height: 40px;\n    padding: 0 12p" ++
  "x;\n    border: 1px solid #e2e8f0;\n    background: white;\n    color: #475569;\n    border-radius: 6px;\n    curso" ++
  "r: pointer;\n    font-size: 14px;\n    font-weight: 500;\n    transition: all 0.2s;\n\x7d\n\n.pagination button:hover \x7b" ++
  "\n    background: #f8fafc;\n    border-color: #cbd5e1;\n\x7d\n\n.pagination button.active \x7b\n    background: #0f172a;\n " ++
  "   color: white;\n    border-color: #0f172a;\n\x7d\n\n/* Responsive Design */\n@media (max-width: 768px) \x7b\n    .main-c" ++
  "ontainer \x7b\n        padding: 16px;\n    \x7d\n    \n    .action-bar \x7b\n        flex-direction: column;\n        gap: 16" ++
  "px;\n    \x7d\n    \n    .action-buttons \x7b\n        width: 100%;\n        flex-direction: column;\n    \x7d\n    \n    .acti" ++
  "on-btn \x7b\n        width: 100%;\n        justify-content: center;\n    \x7d\n    \n    th, td \x7b\n        padding: 12px;\n" ++
  "        font-size: 13px;\n    \x7d\n    \n    .header-content \x7b\n        flex-direction: column;\n        gap: 16px;\n " ++
  "       text-align: center;\n    \x7d\n\x7d\n</style>\n</head>\n<body>\n<div id=\"loginDiv\">\n  <div class=\"login-header\">\n  " ++
  "  <div class=\"security-badge\"></div>\n    <h2>Authentication Required</h2>\n    <div class=\"login-subtitle\">Ente" ++
  "r your credentials to access the system</div>\n  </div>\n  <input type=\"password\" id=\"pwdInput\" placeholder=\"Ent" ++
  "er password\">\n  <button class=\"submit-btn\" onclick=\"checkPassword()\">Authenticate</button>\n</div>\n<div id=\"mai" ++
  "nContent\" style=\"display:none;\">\n  <div class=\"app-header\">\n    <div class=\"header-content\">\n      <div class=" ++
  "\"header-left\">\n        "

/-- generate_html template: literal text between the logo interpolation and the generation-timestamp interpolation. -/
def seg1 : String :=
  "\n        <div class=\"app-title\">Security System Passcode Manager</div>\n      </div>\n      <div class=\"header-s" ++
  "tats\">\n        <div class=\"stat-item\">\n          Report Generated<span class=\"stat-value\">"

/-- generate_html template: literal text between the timestamp interpolation and the user-count interpolation. -/
def seg2 : String :=
  "</span>\n        </div>\n        <div class=\"stat-item\">\n          Total Users<span class=\"stat-value\" id=\"userC" ++
  "ount\">"

/-- generate_html template: literal text between the user-count interpolation and the table-rows interpolation. -/
def seg3 : String :=
  "</span>\n        </div>\n      </div>\n    </div>\n  </div>\n  <div class=\"main-container\">\n    <div class=\"action-" ++
  "bar\">\n      <div class=\"action-buttons\">\n        <button class=\"action-btn primary\" onclick=\"addRow()\">Add Use" ++
  "r</button>\n        <button class=\"action-btn\" onclick=\"exportHTML()\">Export Report</button>\n      </div>\n     " ++
  " <div class=\"instructions-indicator\">\n        <span class=\"help-text\">Instructions</span>\n        <div class=\"" ++
  "help-icon\">?</div>\n        <div class=\"instructions-tooltip\">\n          <h4>How to Use This Report</h4>\n      " ++
  "    <ul>\n            <li><strong>Edit Users:</strong> Click any cell to edit directly</li>\n            <li><st" ++
  "rong>Add Users:</strong> Click \"Add User\" to create a new entry</li>\n            <li><strong>Remove Users:</st" ++
  "rong> Click \"Remove\" to mark for deletion</li>\n            <li><strong>Restore Users:</strong> Click \"Restore\"" ++
  " on deleted entries</li>\n            <li><strong>Save Changes:</strong> Click \"Export Report\" to download with" ++
  " all modifications</li>\n          </ul>\n          <div style=\"margin-top: 12px; padding-top: 12px; border-top:" ++
  " 1px solid #334155; color: #94a3b8; font-size: 12px;\">\n            <strong>Note:</strong> Changes are only sav" ++
  "ed when you export the report.\n          </div>\n        </div>\n      </div>\n    </div>\n    <div class=\"table-c" ++
  "ontainer\">\n      <table id=\"dataTable\">\n        <thead>\n          <tr>\n            <th>User Name</th>\n        " ++
  "    <th>Passcode</th>\n            <th>Authority Level</th>\n            <th>Actions</th>\n          </tr>\n      " ++
  "  </thead>\n        <tbody>\n          "

/-- generate_html template: literal text between the table-rows interpolation and the string "let PASSWORD = "; seg4a followed by that string is the full segment before the password interpolation. -/
def seg4a : String :=
  "\n        </tbody>\n      </table>\n    </div>\n    <div class=\"pagination\" id=\"pagination\"></div>\n  </div>\n</div>" ++
  "\n<script>\n"

/-- generate_html template: full literal segment between the table-rows interpolation and the password interpolation. -/

def seg4 : String :=
  seg4a ++ "let PASSWORD = "

/-- generate_html template: literal text after the ";" that follows the password interpolation, to the end of the document. -/
def seg5a : String :=
  "\nlet currentPage = 1;\nconst rowsPerPage = 50;\nconst table = document.getElementById(\"dataTable\").getElementsBy" ++
  "TagName(\"tbody\")[0];\n\nfunction checkPassword() \x7b\n  let input = document.getElementById(\"pwdInput\").value;\n  if" ++
  " (input === PASSWORD) \x7b\n    document.getElementById(\"loginDiv\").style.display = \"none\";\n    document.getElemen" ++
  "tById(\"mainContent\").style.display = \"block\";\n    paginateTable();\n    updateUserCount();\n  \x7d else \x7b\n    alert" ++
  "(\"Incorrect password. Please try again.\");\n    document.getElementById(\"pwdInput\").value = \"\";\n  \x7d\n\x7d\n\n\nfunctio" ++
  "n updateUserCount() \x7b\n  const allRows = Array.from(table.rows);\n  const activeRows = allRows.filter(row => !ro" ++
  "w.classList.contains(\"deleted\"));\n  const deletedRows = allRows.filter(row => row.classList.contains(\"deleted\"" ++
  "));\n  \n  // Update the count to show active users\n  document.getElementById(\"userCount\").textContent = activeR" ++
  "ows.length;\n  \n  // Optionally show deleted count in header\n  let deletedInfo = document.getElementById(\"delet" ++
  "edCount\");\n  if (!deletedInfo && deletedRows.length > 0) \x7b\n    let statsDiv = document.querySelector(\".header-" ++
  "stats\");\n    let deletedStat = document.createElement(\"div\");\n    deletedStat.className = \"stat-item\";\n    del" ++
  "etedStat.innerHTML = `Marked for Deletion<span class=\"stat-value\" id=\"deletedCount\" style=\"color: #ef4444;\">$\x7b" ++
  "deletedRows.length\x7d</span>`;\n    statsDiv.appendChild(deletedStat);\n  \x7d else if (deletedInfo) \x7b\n    if (delete" ++
  "dRows.length > 0) \x7b\n      deletedInfo.textContent = deletedRows.length;\n    \x7d else \x7b\n      deletedInfo.parentE" ++
  "lement.remove();\n    \x7d\n  \x7d\n\x7d\n\nfunction paginateTable() \x7b\n  const rows = Array.from(table.rows); // Include ALL" ++
  " rows, including deleted\n  const totalPages = Math.ceil(rows.length / rowsPerPage);\n  \n  // Hide all rows firs" ++
  "t\n  rows.forEach(row => row.style.display = \"none\");\n  \n  // Show rows for current page (including deleted one" ++
  "s)\n  const start = (currentPage - 1) * rowsPerPage;\n  const end = start + rowsPerPage;\n  rows.slice(start, end" ++
  ").forEach(row => row.style.display = \"\");\n  \n  // Update pagination buttons\n  let pagDiv = document.getElement" ++
  "ById(\"pagination\");\n  pagDiv.innerHTML = \"\";\n  \n  if (totalPages > 1) \x7b\n    for (let i = 1; i <= totalPages; i" ++
  "++) \x7b\n      let btn = document.createElement(\"button\");\n      btn.textContent = i;\n      if (i === currentPage" ++
  ") btn.classList.add(\"active\");\n      btn.onclick = () => \x7b \n        currentPage = i; \n        paginateTable();" ++
  " \n      \x7d;\n      pagDiv.appendChild(btn);\n    \x7d\n  \x7d\n\x7d\n\nfunction deleteRow(btn) \x7b\n  let row = btn.parentNode.pa" ++
  "rentNode;\n  \n  if (row.classList.contains(\"deleted\")) \x7b\n    // Restore the row\n    row.classList.remove(\"delet" ++
  "ed\");\n    btn.textContent = \"Remove\";\n    btn.classList.remove(\"restore-btn\");\n    \n    // Re-enable editing\n " ++
  "   let cells = row.querySelectorAll(\".editable-cell\");\n    cells.forEach(cell => \x7b\n      cell.contentEditable " ++
  "= \"true\";\n    \x7d);\n    \n    // Re-enable auth dropdown\n    let authSelect = row.querySelector(\".auth-select\");\n" ++
  "    if (authSelect) \x7b\n      authSelect.disabled = false;\n    \x7d\n  \x7d else \x7b\n    // Mark as deleted\n    if (confi" ++
  "rm(\"Mark this user for deletion?\")) \x7b\n      row.classList.add(\"deleted\");\n      btn.textContent = \"Restore\";\n " ++
  "     btn.classList.add(\"restore-btn\");\n      \n      // Disable editing on deleted rows\n      let cells = row.q" ++
  "uerySelectorAll(\".editable-cell\");\n      cells.forEach(cell => \x7b\n        cell.contentEditable = \"false\";\n     " ++
  " \x7d);\n      \n      // Disable auth dropdown\n      let authSelect = row.querySelector(\".auth-select\");\n      if " ++
  "(authSelect) \x7b\n        authSelect.disabled = true;\n      \x7d\n    \x7d\n  \x7d\n  \n  updateUserCount();\n  paginateTable()" ++
  ";\n\x7d\n\nfunction markModified(element) \x7b\n  let row = element.closest(\"tr\");\n  if (!row.classList.contains(\"delete" ++
  "d\")) \x7b\n    row.classList.add(\"modified\");\n  \x7d\n\x7d\n\nfunction addRow() \x7b\n  let row = table.insertRow();\n  row.clas" ++
  "sList.add(\"added\");\n  \n  // Add name cell\n  let nameCell = row.insertCell();\n  nameCell.classList.add(\"editabl" ++
  "e-cell\");\n  nameCell.contentEditable = \"true\";\n  nameCell.textContent = \"\";\n  nameCell.addEventListener(\"input" ++
  "\", function() \x7b\n    if (!this.parentNode.classList.contains(\"deleted\")) \x7b\n      this.parentNode.classList.add(" ++
  "\"modified\");\n    \x7d\n  \x7d);\n  \n  // Add passcode cell\n  let passcodeCell = row.insertCell();\n  passcodeCell.class" ++
  "List.add(\"editable-cell\", \"passcode-cell\");\n  passcodeCell.contentEditable = \"true\";\n  passcodeCell.textConten" ++
  "t = \"\";\n  passcodeCell.addEventListener(\"input\", function() \x7b\n    if (!this.parentNode.classList.contains(\"del" ++
  "eted\")) \x7b\n      this.parentNode.classList.add(\"modified\");\n    \x7d\n  \x7d);\n  \n  // Add authority cell with dropdow" ++
  "n\n  let authCell = row.insertCell();\n  authCell.classList.add(\"auth-cell\");\n  let selectHtml = `<select class=" ++
  "\"auth-select\" onchange=\"markModified(this)\">\n    <option value=\"None\" selected>None</option>`;\n  for (let leve" ++
  "l = 1; level <= 8; level++) \x7b\n    selectHtml += `<option value=\"A$\x7blevel\x7d\">A$\x7blevel\x7d</option>`;\n  \x7d\n  selectHt" ++
  "ml += `</select>`;\n  authCell.innerHTML = selectHtml;\n  \n  // Add action cell\n  let actionCell = row.insertCel" ++
  "l();\n  actionCell.classList.add(\"action-cell\");\n  actionCell.innerHTML = `<button class=\"delete-btn\" onclick='" ++
  "deleteRow(this)'>Remove</button>`;\n  \n  updateUserCount();\n  paginateTable();\n  \n  // Focus on first cell of n" ++
  "ew row\n  row.cells[0].focus();\n\x7d\n\n// Add event listeners to existing editable cells\ndocument.addEventListener(" ++
  "\"DOMContentLoaded\", function() \x7b\n  document.querySelectorAll(\".editable-cell\").forEach(cell => \x7b\n    cell.addE" ++
  "ventListener(\"input\", function() \x7b\n      if (!this.parentNode.classList.contains(\"deleted\")) \x7b\n        this.pa" ++
  "rentNode.classList.add(\"modified\");\n      \x7d\n    \x7d);\n  \x7d);\n\x7d);\n\nfunction exportHTML() \x7b\n  if (confirm(\"Export t" ++
  "he current report with all changes?\")) \x7b\n    let html = document.documentElement.outerHTML;\n    let blob = new" ++
  " Blob([html], \x7btype: \"text/html\"\x7d);\n    let a = document.createElement(\"a\");\n    a.href = URL.createObjectURL(" ++
  "blob);\n    a.download = \"Bosch_Report_\" + new Date().toISOString().slice(0,10) + \".html\";\n    a.click();\n    a" ++
  "lert(\"Report exported successfully!\");\n  \x7d\n\x7d\n\n// Add keyboard shortcut for password entry\ndocument.getElementB" ++
  "yId(\"pwdInput\")?.addEventListener(\"keypress\", function(e) \x7b\n  if (e.key === \"Enter\") \x7b\n    checkPassword();\n  " ++
  "\x7d\n\x7d);\n</script>\n</body>\n</html>\n"

/-- generate_html template: full literal segment after the password interpolation (starts with the ";" terminating the PASSWORD statement). -/

def seg5 : String :=
  ";" ++ seg5a

/-- Row template of generate_html (source lines 122-134): literal fragment number 0 between the interpolation points. -/
def rowC0 : String :=
  "\n        <tr>\n            <td class=\"editable-cell\" contenteditable='true'>"

/-- Row template of generate_html (source lines 122-134): literal fragment number 1 between the interpolation points. -/
def rowC1 : String :=
  "</td>\n            <td class=\"editable-cell passcode-cell\" contenteditable='true'>"

/-- Row template of generate_html (source lines 122-134): literal fragment number 2 between the interpolation points. -/
def rowC2 : String :=
  "</td>\n            <td class=\"auth-cell\">\n                <select class=\"auth-select\" onchange=\"markModified(th" ++
  "is)\">\n                    "

/-- Row template of generate_html (source lines 122-134): literal fragment number 3 between the interpolation points. -/
def rowC3 : String :=
  "\n                </select>\n            </td>\n            <td class=\"action-cell\">\n                <button clas" ++
  "s=\"delete-btn\" onclick='deleteRow(this)'>Remove</button>\n            </td>\n        </tr>"

/-- Logo template of generate_html (source lines 142-145): literal fragment around the mime-type and base64 interpolations. -/
def logoC0 : String :=
  "\n    <div class=\"header-logo\">\n        <img src='data:image/"

/-- Logo template of generate_html (source lines 142-145): literal fragment around the mime-type and base64 interpolations. -/
def logoC1 : String :=
  ";base64,"

/-- Logo template of generate_html (source lines 142-145): literal fragment around the mime-type and base64 interpolations. -/
def logoC2 : String :=
  "' alt=\"Company Logo\">\n    </div>"

/-- One `<tr>` of the table (source lines 122-134): the row template with the
HTML-escaped name, the HTML-escaped passcode and the joined authority
options interpolated. -/
def rowHtml (row : ParsedRecord) : String :=
  rowC0 ++ html_escape row.name ++ rowC1 ++ html_escape row.passcode ++ rowC2 ++
    authOptionsJoined (authNumOf row.auth) ++ rowC3

/-- `table_rows` accumulation (source lines 107-134): `+=` of each row's
markup, starting from the empty string. -/
def table_rows (data : List ParsedRecord) : String :=
  data.foldl (fun acc row => acc ++ rowHtml row) ""

/-- `logo_html` (source lines 137-145): the logo `<div>` markup when branding
data is present and its declared kind is in the allow-list, and the empty
string otherwise.  Branding data is the pair (base64 text, mime kind)
returned by `process_logo`. -/
def logoHtmlOf : Option (String × String) → String
  | none => ""
  | some (b64, mime) =>
    if mime == "png" || mime == "jpeg" || mime == "gif" || mime == "webp" then
      logoC0 ++ mime ++ logoC1 ++ b64 ++ logoC2
    else ""

/-- The embedded `PASSWORD` value (source line 788):
`json.dumps(password) if password else '""'`. -/
def passwordJs (password : String) : String :=
  if password != "" then jsonDumps password else "\"\""

/-- `generate_html` (source lines 105-996): the document template with the
logo markup, the generation timestamp, the user count, the table rows and
the gate-secret literal interpolated in source order.  The code reads the
clock with `datetime.now().strftime('%b %d, %Y')` at the timestamp
interpolation point; the formatted value is passed here explicitly as
`now`. -/
def generate_html (data : List ParsedRecord) (password : String)
    (logo_data : Option (String × String)) (now : String) : String :=
  seg0 ++ logoHtmlOf logo_data ++ seg1 ++ now ++ seg2 ++ toString data.length ++
    seg3 ++ table_rows data ++ seg4 ++ passwordJs password ++ seg5

/-- Everything of the rendered document strictly before the generation
timestamp; depends only on the branding input. -/
def htmlBeforeTs (logo_data : Option (String × String)) : String :=
  seg0 ++ logoHtmlOf logo_data ++ seg1

/-- Everything of the rendered document strictly after the generation
timestamp; depends only on the record list and the gate secret. -/
def htmlAfterTs (data : List ParsedRecord) (password : String) : String :=
  seg2 ++ toString data.length ++ seg3 ++ table_rows data ++ seg4 ++
    passwordJs password ++ seg5

/-- `containsLB pat l` scans `l` for an occurrence of the contiguous segment
`pat`. -/
def containsLB (pat : List Char) : List Char → Bool
  | [] => startsWithL pat []
  | c :: rest => startsWithL pat (c :: rest) || containsLB pat rest

/-- `strContainsB t sub` holds when `sub` occurs contiguously inside `t`. -/
def strContainsB (t sub : String) : Bool :=
  containsLB sub.data t.data

/-- Lifecycle states of a rendered document row (§3 of the spec).  In the
document a row's state is carried by its CSS classes: `deleted` wins, then
`added`, then `modified`; a row with none of them is `Normal`. -/
inductive RowState where
  | Normal
  | Modified
  | Deleted
  | Added
deriving DecidableEq, Repr

/-- A table row of the rendered document, as the embedded script manipulates
it: the three cell contents, the three state CSS classes (`modified`,
`deleted`, `added`), whether the text cells are editable and the dropdown
enabled (`contentEditable`/`disabled`, toggled together by `deleteRow`), and
whether the action button is in its `Restore` form (text plus
`restore-btn` class, also toggled together). -/
structure DocRow where
  name : String
  passcode : String
  auth : String
  modified : Bool
  deleted : Bool
  added : Bool
  editable : Bool
  btnRestore : Bool
deriving DecidableEq, Repr

/-- State denoted by a row's CSS classes. -/
def stateOf (r : DocRow) : RowState :=
  if r.deleted then .Deleted
  else if r.added then .Added
  else if r.modified then .Modified
  else .Normal

/-- The initial row rendered for a parsed record: state `Normal`, editable,
button in its `Remove` form. -/
def initRow (rec : ParsedRecord) : DocRow :=
  ⟨rec.name, rec.passcode, rec.auth, false, false, false, true, false⟩

/-- The row appended by `addRow` (source lines 914-961): empty name and
passcode, authority dropdown on `None`, `added` class, editable. -/
def addedRow : DocRow :=
  ⟨"", "", "None", false, false, true, true, false⟩

/-- `deleteRow` (source lines 862-905): on a row carrying the `deleted` class
it restores — removes the class, switches the button back to `Remove`, and
re-enables the cells and the dropdown, touching nothing else; on any other
row it asks for confirmation and, when confirmed, adds the `deleted` class,
switches the button to `Restore`, and disables the cells and the dropdown.
`confirmOk` is the answer to the confirmation prompt (ignored on restore,
which has no prompt). -/
def deleteRowAction (r : DocRow) (confirmOk : Bool) : DocRow :=
  if r.deleted then
    { r with deleted := false, btnRestore := false, editable := true }
  else if confirmOk then
    { r with deleted := true, btnRestore := true, editable := false }
  else r

/-- `markModified` (source lines 907-912): a dropdown change adds the
`modified` class unless the row is deleted.  The new dropdown value is
recorded when the control is enabled. -/
def authChangeAction (r : DocRow) (v : String) : DocRow :=
  if r.editable then
    if r.deleted then { r with auth := v } else { r with auth := v, modified := true }
  else r

/-- The `input` listener on an editable name cell (source lines 964-972):
a text edit is possible only while the cell is `contentEditable`, records
the new text, and adds the `modified` class unless the row is deleted. -/
def editNameAction (r : DocRow) (v : String) : DocRow :=
  if r.editable then
    if r.deleted then { r with name := v } else { r with name := v, modified := true }
  else r

/-- The `input` listener on an editable passcode cell (source lines
964-972), as for `editNameAction`. -/
def editPasscodeAction (r : DocRow) (v : String) : DocRow :=
  if r.editable then
    if r.deleted then { r with passcode := v } else { r with passcode := v, modified := true }
  else r

/-- Cons-recursive form of the table-rows accumulation: the concatenation of
the row markups in order. -/
def rowsConcat : List ParsedRecord → String
  | [] => ""
  | r :: rs => rowHtml r ++ rowsConcat rs

/-- A character that cannot open or close markup structure: not `<`, `>`,
`"` or `'`. -/
def inertChar (c : Char) : Bool :=
  !(c == '<') && !(c == '>') && !(c == '"') && !(c == '\'')

/-! ### String and containment lemmas -/

theorem startsWithL_self_append (p r : List Char) : startsWithL p (p ++ r) = true := by
  induction p with
  | nil => rfl
  | cons c cs ih => simp [startsWithL, ih]

theorem startsWithL_ex {p l : List Char} (h : startsWithL p l = true) :
    ∃ r, l = p ++ r := by
  induction p generalizing l with
  | nil => exact ⟨l, rfl⟩
  | cons c cs ih =>
    cases l with
    | nil => simp [startsWithL] at h
    | cons d ds =>
      simp only [startsWithL, Bool.and_eq_true, beq_iff_eq] at h
      obtain ⟨r, hr⟩ := ih h.2
      exact ⟨r, by simp [h.1, hr]⟩

theorem containsLB_of_startsWith {pat l : List Char} (h : startsWithL pat l = true) :
    containsLB pat l = true := by
  cases l with
  | nil => simpa [containsLB] using h
  | cons c cs => simp [containsLB, h]

theorem containsLB_of_eq (a : List Char) {pat b l : List Char}
    (h : l = a ++ (pat ++ b)) : containsLB pat l = true := by
  induction a generalizing l with
  | nil =>
    subst h
    exact containsLB_of_startsWith (startsWithL_self_append pat b)
  | cons c cs ih =>
    subst h
    simp [containsLB, ih rfl]

theorem containsLB_ex {pat l : List Char} (h : containsLB pat l = true) :
    ∃ a b, l = a ++ (pat ++ b) := by
  induction l with
  | nil =>
    simp only [containsLB] at h
    obtain ⟨r, hr⟩ := startsWithL_ex h
    exact ⟨[], r, hr⟩
  | cons c cs ih =>
    simp only [containsLB, Bool.or_eq_true] at h
    rcases h with h | h
    · obtain ⟨r, hr⟩ := startsWithL_ex h
      exact ⟨[], r, hr⟩
    · obtain ⟨a, b, hab⟩ := ih h
      exact ⟨c :: a, b, by simp [hab]⟩

theorem strContainsB_of_data {t sub : String} (a b : List Char)
    (h : t.data = a ++ (sub.data ++ b)) : strContainsB t sub = true :=
  containsLB_of_eq a h

theorem strContainsB_data_ex {t sub : String} (h : strContainsB t sub = true) :
    ∃ a b, t.data = a ++ (sub.data ++ b) :=
  containsLB_ex h

theorem strContainsB_self (s : String) : strContainsB s s = true :=
  strContainsB_of_data [] [] (by simp)

theorem strContainsB_append_left {t sub : String} (x : String)
    (h : strContainsB t sub = true) : strContainsB (x ++ t) sub = true := by
  obtain ⟨a, b, hab⟩ := strContainsB_data_ex h
  exact strContainsB_of_data (x.data ++ a) b (by simp [hab])

theorem strContainsB_append_right {t sub : String} (x : String)
    (h : strContainsB t sub = true) : strContainsB (t ++ x) sub = true := by
  obtain ⟨a, b, hab⟩ := strContainsB_data_ex h
  exact strContainsB_of_data a (b ++ x.data) (by simp [hab])

theorem strContainsB_trans {t m sub : String} (h1 : strContainsB t m = true)
    (h2 : strContainsB m sub = true) : strContainsB t sub = true := by
  obtain ⟨a, b, hab⟩ := strContainsB_data_ex h1
  obtain ⟨c, d, hcd⟩ := strContainsB_data_ex h2
  exact strContainsB_of_data (a ++ c) (d ++ b) (by simp [hab, hcd])

/-! ### Escape lemmas -/

theorem escapeChars_append (a b : List Char) :
    escapeChars (a ++ b) = escapeChars a ++ escapeChars b := by
  induction a with
  | nil => rfl
  | cons c cs ih => simp [escapeChars, ih]

theorem escChar_inert (c : Char) : (escChar c).all inertChar = true := by
  unfold escChar
  split
  · decide
  split
  · decide
  split
  · decide
  split
  · decide
  split
  · decide
  next h1 h2 h3 h4 h5 =>
    simp only [Bool.not_eq_true] at h2 h3 h4 h5
    simp [inertChar, h2, h3, h4, h5]

theorem escapeChars_inert (l : List Char) : (escapeChars l).all inertChar = true := by
  induction l with
  | nil => rfl
  | cons c cs ih => simp [escapeChars, List.all_append, escChar_inert, ih]

/-! ### Renderer structure lemmas -/

theorem foldl_rowHtml (data : List ParsedRecord) :
    ∀ acc, data.foldl (fun a r => a ++ rowHtml r) acc = acc ++ rowsConcat data := by
  induction data with
  | nil => intro acc; simp [rowsConcat]
  | cons r rs ih =>
    intro acc
    simp only [List.foldl_cons, rowsConcat, ih, String.append_assoc]

theorem table_rows_eq (data : List ParsedRecord) : table_rows data = rowsConcat data := by
  simpa [table_rows] using foldl_rowHtml data ""

theorem rowsConcat_mem {r : ParsedRecord} {data : List ParsedRecord} (h : r ∈ data) :
    ∃ u v, rowsConcat data = u ++ (rowHtml r ++ v) := by
  induction data with
  | nil => cases h
  | cons d ds ih =>
    rcases List.mem_cons.mp h with h' | h'
    · subst h'
      exact ⟨"", rowsConcat ds, by simp [rowsConcat]⟩
    · obtain ⟨u, v, huv⟩ := ih h'
      exact ⟨rowHtml d ++ u, v, by simp [rowsConcat, huv, String.append_assoc]⟩

theorem table_rows_contains {r : ParsedRecord} {data : List ParsedRecord} (h : r ∈ data)
    {sub : String} (hc : strContainsB (rowHtml r) sub = true) :
    strContainsB (table_rows data) sub = true := by
  rw [table_rows_eq]
  obtain ⟨u, v, huv⟩ := rowsConcat_mem h
  rw [huv]
  exact strContainsB_append_left u (strContainsB_append_right v hc)

theorem generate_html_contains_rows (data : List ParsedRecord) (password : String)
    (logo_data : Option (String × String)) (now : String) {sub : String}
    (hc : strContainsB (table_rows data) sub = true) :
    strContainsB (generate_html data password logo_data now) sub = true := by
  unfold generate_html
  apply strContainsB_append_right
  apply strContainsB_append_right
  apply strContainsB_append_right
  exact strContainsB_append_left _ hc

theorem rowHtml_contains_name (r : ParsedRecord) :
    strContainsB (rowHtml r) (html_escape r.name) = true := by
  unfold rowHtml
  apply strContainsB_append_right
  apply strContainsB_append_right
  apply strContainsB_append_right
  apply strContainsB_append_right
  apply strContainsB_append_right
  exact strContainsB_append_left _ (strContainsB_self _)

theorem rowHtml_contains_passcode (r : ParsedRecord) :
    strContainsB (rowHtml r) (html_escape r.passcode) = true := by
  unfold rowHtml
  apply strContainsB_append_right
  apply strContainsB_append_right
  apply strContainsB_append_right
  exact strContainsB_append_left _ (strContainsB_self _)

theorem html_escape_contains {s m : String} (h : strContainsB s m = true) :
    strContainsB (html_escape s) (html_escape m) = true := by
  obtain ⟨a, b, hab⟩ := strContainsB_data_ex h
  apply strContainsB_of_data (escapeChars a) (escapeChars b)
  show escapeChars s.data = _
  rw [hab, escapeChars_append, escapeChars_append]
  rfl

/-! ### Parser lemmas -/

theorem beqStr_comm (a b : String) : (a == b) = (b == a) := by
  by_cases h : a = b
  · subst h; rfl
  · have h1 : (a == b) = false := beq_eq_false_iff_ne.mpr h
    have h2 : (b == a) = false := beq_eq_false_iff_ne.mpr (Ne.symm h)
    rw [h1, h2]

theorem firstAuth_findIdx (flags : List String) : ∀ i,
    firstAuth flags i =
      match flags.findIdx? authQual i with
      | some k => "A" ++ toString k
      | none => "None" := by
  induction flags with
  | nil => intro i; rfl
  | cons v rest ih =>
    intro i
    by_cases h : authQual v = true
    · simp [firstAuth, List.findIdx?_cons, h]
    · simp only [Bool.not_eq_true] at h
      simp [firstAuth, List.findIdx?_cons, h, ih]

theorem firstAuth_range (flags : List String) : ∀ i,
    firstAuth flags i = "None" ∨
      ∃ k, i ≤ k ∧ k < i + flags.length ∧ firstAuth flags i = "A" ++ toString k := by
  induction flags with
  | nil => intro i; exact Or.inl rfl
  | cons v rest ih =>
    intro i
    by_cases h : authQual v = true
    · refine Or.inr ⟨i, Nat.le_refl i, ?_, by simp [firstAuth, h]⟩
      simp only [List.length_cons]
      omega
    · simp only [Bool.not_eq_true] at h
      rcases ih (i + 1) with h' | ⟨k, hk1, hk2, hk3⟩
      · exact Or.inl (by simp [firstAuth, h, h'])
      · refine Or.inr ⟨k, by omega, ?_, by simp [firstAuth, h, hk3]⟩
        simp only [List.length_cons]
        omega

theorem lineToCandidate_some {line userId : String} {rec : ParsedRecord}
    (h : lineToCandidate line = some (userId, rec)) :
    rec.name = repairName ((partsOf line).getD 1 "") ∧
    rec.passcode = pyReplace ((partsOf line).getD 2 "") " " "" ∧
    rec.auth = authFromParts (partsOf line) ∧
    userId = pyReplace ((partsOf line).headD "") "User " "" := by
  simp only [lineToCandidate] at h
  split at h
  · split at h
    · split at h
      · injection h with h'
        injection h' with hid hrec
        subst hid
        subst hrec
        exact ⟨rfl, rfl, rfl, rfl⟩
      · cases h
    · cases h
  · cases h

theorem foldl_parseStep_mem : ∀ (lines : List String) (acc : List (String × ParsedRecord))
    (p : String × ParsedRecord), p ∈ lines.foldl parseStep acc →
    p ∈ acc ∨ ∃ line, line ∈ lines ∧ lineToCandidate line = some p := by
  intro lines
  induction lines with
  | nil => intro acc p h; exact Or.inl h
  | cons l ls ih =>
    intro acc p h
    simp only [List.foldl_cons] at h
    rcases ih (parseStep acc l) p h with h' | ⟨line, hl, hc⟩
    · cases hcand : lineToCandidate l with
      | none =>
        rw [show parseStep acc l = acc from by simp [parseStep, hcand]] at h'
        exact Or.inl h'
      | some q =>
        rw [show parseStep acc l = insertPair acc q from by simp [parseStep, hcand]] at h'
        by_cases hseen : (acc.any (fun z => z.1 == q.1)) = true
        · rw [show insertPair acc q = acc from by simp [insertPair, hseen]] at h'
          exact Or.inl h'
        · simp only [Bool.not_eq_true] at hseen
          rw [show insertPair acc q = acc ++ [q] from by simp [insertPair, hseen]] at h'
          rcases List.mem_append.mp h' with h'' | h''
          · exact Or.inl h''
          · have hq : p = q := by simpa using h''
            exact Or.inr ⟨l, List.mem_cons_self l ls, by rw [hcand, hq]⟩
    · exact Or.inr ⟨line, List.mem_cons_of_mem _ hl, hc⟩

theorem foldl_parseStep_filterMap : ∀ (lines : List String) (acc : List (String × ParsedRecord)),
    lines.foldl parseStep acc = (lines.filterMap lineToCandidate).foldl insertPair acc := by
  intro lines
  induction lines with
  | nil => intro acc; rfl
  | cons l ls ih =>
    intro acc
    simp only [List.foldl_cons, List.filterMap_cons]
    cases hcand : lineToCandidate l with
    | none => simp [parseStep, hcand, ih]
    | some q => simp [parseStep, hcand, ih]

theorem foldl_insertPair_dedup : ∀ (cs : List (String × ParsedRecord))
    (acc : List (String × ParsedRecord)),
    cs.foldl insertPair acc =
      acc ++ dedupFirst (cs.filter (fun p => !(acc.any (fun q => q.1 == p.1)))) := by
  intro cs
  induction cs with
  | nil => intro acc; simp [dedupFirst]
  | cons p ps ih =>
    intro acc
    simp only [List.foldl_cons]
    by_cases hmem : (acc.any (fun q => q.1 == p.1)) = true
    · rw [show insertPair acc p = acc from by simp [insertPair, hmem]]
      rw [ih acc]
      congr 1
      rw [List.filter_cons]
      simp [hmem]
    · simp only [Bool.not_eq_true] at hmem
      rw [show insertPair acc p = acc ++ [p] from by simp [insertPair, hmem]]
      rw [ih (acc ++ [p])]
      rw [List.filter_cons]
      simp only [hmem, Bool.not_false, if_pos]
      rw [dedupFirst]
      have hpred : ps.filter (fun q => !((acc ++ [p]).any (fun z => z.1 == q.1))) =
          (ps.filter (fun q => !(acc.any (fun z => z.1 == q.1)))).filter
            (fun q => q.1 != p.1) := by
        rw [List.filter_filter]
        apply List.filter_congr
        intro a _
        simp only [List.any_append, List.any_cons, List.any_nil, Bool.or_false,
          Bool.not_or, bne]
        rw [beqStr_comm p.1 a.1]
        rw [Bool.and_comm]
      rw [hpred]
      simp [List.append_assoc]

theorem parseLines_dedup_eq (lines : List String) :
    parseLines lines = (dedupFirst (lines.filterMap lineToCandidate)).map Prod.snd := by
  unfold parseLines
  rw [foldl_parseStep_filterMap, foldl_insertPair_dedup]
  simp

theorem authFromParts_eq_spec (parts : List String) :
    authFromParts parts = specAuthFromParts parts := by
  unfold authFromParts specAuthFromParts
  rw [firstAuth_findIdx]
  rw [show (1 : Nat) = 0 + 1 from rfl, List.findIdx?_succ]
  cases hfi : List.findIdx? authQual ((parts.drop 5).take 8) with
  | none => simp
  | some k => simp

theorem generate_html_decompose (data : List ParsedRecord) (password : String)
    (logo_data : Option (String × String)) (now : String) :
    generate_html data password logo_data now =
      htmlBeforeTs logo_data ++ now ++ htmlAfterTs data password := by
  simp [generate_html, htmlBeforeTs, htmlAfterTs, String.append_assoc]

theorem generate_html_contains_passwordJs (data : List ParsedRecord) (password : String)
    (logo_data : Option (String × String)) (now : String) :
    strContainsB (generate_html data password logo_data now) (passwordJs password) = true := by
  apply strContainsB_of_data
    (seg0.data ++ ((logoHtmlOf logo_data).data ++ (seg1.data ++ (now.data ++
      (seg2.data ++ ((toString data.length).data ++ (seg3.data ++ ((table_rows data).data ++
      (seg4a.data ++ "let PASSWORD = ".data)))))))))
    seg5.data
  simp [generate_html, seg4, List.append_assoc]

/-! ### Claim theorems -/

/-- C2 (amended): deduplication is first-seen-wins among the candidate lines
that survive extraction and the placeholder filter: the parse result is
exactly the first-occurrence-per-id sublist of the surviving candidates, in
first-seen order, with later same-id survivors discarded entirely; a
candidate line that the placeholder filter (or the field-count check) drops
does not claim its id. -/
theorem c2_dedup_first_surviving (lines : List String) :
    parseLines lines = (dedupFirst (lines.filterMap lineToCandidate)).map Prod.snd :=
  parseLines_dedup_eq lines

/-- C2 (counterexample to the claim as stated): the two lines are candidate
records carrying the same id `7`; the first is dropped by the placeholder
filter, so the later occurrence is not discarded — its fields survive, and
removing it changes the output.  This refutes "only the first occurrence's
fields survive … and the later occurrence is discarded entirely, regardless
of the content of either line". -/
theorem c2_counterexample :
    startsWithL "User ".data (normalizeLine "User 7,User 7,0,x,x,0,0").data = true ∧
    startsWithL "User ".data (normalizeLine "User 7,Alice,1234,x,x,1,0").data = true ∧
    (partsOf "User 7,User 7,0,x,x,0,0").length > 6 ∧
    (partsOf "User 7,Alice,1234,x,x,1,0").length > 6 ∧
    pyReplace ((partsOf "User 7,User 7,0,x,x,0,0").headD "") "User " "" = "7" ∧
    pyReplace ((partsOf "User 7,Alice,1234,x,x,1,0").headD "") "User " "" = "7" ∧
    parseLines ["User 7,User 7,0,x,x,0,0", "User 7,Alice,1234,x,x,1,0"] =
      [⟨"Alice", "1234", "A1"⟩] ∧
    parseLines ["User 7,User 7,0,x,x,0,0", "User 7,Alice,1234,x,x,1,0"] ≠
      parseLines ["User 7,User 7,0,x,x,0,0"] := by
  decide

/-- C3: for a candidate line whose repaired name matches the auto-generated
`User <digits>` pattern, the record is dropped exactly when its passcode
(after space stripping) is empty or `"0"`; the spec's two example lines
behave as stated: the placeholder with passcode `0` is excluded, the one
with passcode `4821` is included. -/
theorem c3_placeholder_filter :
    (∀ line : String,
      startsWithL "User ".data (normalizeLine line).data = true →
      (partsOf line).length > 6 →
      isUserStar (repairName ((partsOf line).getD 1 "")) = true →
      (lineToCandidate line = none ↔
        (pyReplace ((partsOf line).getD 2 "") " " "" = "" ∨
         pyReplace ((partsOf line).getD 2 "") " " "" = "0"))) ∧
    parseLines ["User 7,User 7,0,x,x,0,0"] = [] ∧
    parseLines ["User 7,User 7,4821,x,x,0,0"] = [⟨"User 7", "4821", "None"⟩] := by
  refine ⟨?_, by decide, by decide⟩
  intro line h1 h2 h3
  unfold lineToCandidate
  rw [if_pos h1, if_pos h2, h3]
  simp only [Bool.not_true, Bool.false_or]
  by_cases hp : (pyReplace ((partsOf line).getD 2 "") " " "" != "" &&
      pyReplace ((partsOf line).getD 2 "") " " "" != "0") = true
  · rw [if_pos hp]
    simp only [Bool.and_eq_true, bne_iff_ne] at hp
    constructor
    · intro hcontra
      exact Option.noConfusion hcontra
    · intro hor
      rcases hor with h | h
      · exact absurd h hp.1
      · exact absurd h hp.2
  · rw [if_neg hp]
    have hp2 : ¬(pyReplace ((partsOf line).getD 2 "") " " "" ≠ "" ∧
        pyReplace ((partsOf line).getD 2 "") " " "" ≠ "0") := by
      simpa [Bool.and_eq_true, bne_iff_ne] using hp
    constructor
    · intro _
      by_cases hq : pyReplace ((partsOf line).getD 2 "") " " "" = ""
      · exact Or.inl hq
      · exact Or.inr (Decidable.of_not_not (fun hq0 => hp2 ⟨hq, hq0⟩))
    · intro _
      rfl

/-- C3 (witness): the theorem applied to the line `User 7,User 7,0,x,x,0,0`,
whose repaired name is the placeholder pattern and whose passcode is `0`. -/
theorem c3_witness :
    startsWithL "User ".data (normalizeLine "User 7,User 7,0,x,x,0,0").data = true ∧
    (partsOf "User 7,User 7,0,x,x,0,0").length > 6 ∧
    isUserStar (repairName ((partsOf "User 7,User 7,0,x,x,0,0").getD 1 "")) = true ∧
    (lineToCandidate "User 7,User 7,0,x,x,0,0" = none ↔
      (pyReplace ((partsOf "User 7,User 7,0,x,x,0,0").getD 2 "") " " "" = "" ∨
       pyReplace ((partsOf "User 7,User 7,0,x,x,0,0").getD 2 "") " " "" = "0")) :=
  ⟨by decide, by decide, by decide,
    c3_placeholder_filter.1 "User 7,User 7,0,x,x,0,0" (by decide) (by decide) (by decide)⟩

/-- C5 (counterexample to the claim as stated): on the end-to-end scenario
line the parser's normalized name is not `John Smith` — the leading
uppercase `J` matches neither repair pattern (`[a-z]\s+[a-z]` needs a
lowercase first letter, and `ohn` is three letters, too long for
`[a-z]{1,2}\b`), so the space after `J` survives. -/
theorem c5_counterexample :
    (parseLines ["User 0, J o hn  Sm ith, 4821, x,x,0,0,1,0,0,0,0,0"]).map ParsedRecord.name ≠
      ["John Smith"] := by
  decide

/-- C5 (amended): the scenario line parses to exactly one record with
normalized name `J ohn Smith`, passcode `4821` and authority level `A3`. -/
theorem c5_scenario :
    parseLines ["User 0, J o hn  Sm ith, 4821, x,x,0,0,1,0,0,0,0,0"] =
      [⟨"J ohn Smith", "4821", "A3"⟩] := by
  decide

/-- C4: the authority level the parser assigns to every surviving candidate
record equals the specification's description — the first (smallest-index)
of the up-to-eight authority flag columns (fields 5 through 12) whose value
is neither `"0"` nor a case-insensitive `"no"` gives `A(i)`, and `"None"`
results when no column qualifies; in particular the flag row
`[0,no,0,1,0,0,0,0]` yields `A4`. -/
theorem c4_authority :
    (∀ (line userId : String) (rec : ParsedRecord),
        lineToCandidate line = some (userId, rec) →
        rec.auth = specAuthFromParts (partsOf line)) ∧
    authFromParts ["User 1", "Bob", "4821", "x", "x", "0", "no", "0", "1", "0", "0", "0", "0"] = "A4" ∧
    specAuthFromParts ["User 1", "Bob", "4821", "x", "x", "0", "no", "0", "1", "0", "0", "0", "0"] = "A4" := by
  refine ⟨?_, by decide, by decide⟩
  intro line userId rec h
  obtain ⟨-, -, ha, -⟩ := lineToCandidate_some h
  rw [ha, authFromParts_eq_spec]

/-- C4 (witness): the theorem applied to a line whose eight authority flags
are `0,no,0,1,0,0,0,0`; the record's level is `A4`. -/
theorem c4_witness :
    lineToCandidate "User 1,Bob,4821,x,x,0,no,0,1,0,0,0,0" =
      some ("1", ⟨"Bob", "4821", "A4"⟩) ∧
    (⟨"Bob", "4821", "A4"⟩ : ParsedRecord).auth =
      specAuthFromParts (partsOf "User 1,Bob,4821,x,x,0,no,0,1,0,0,0,0") :=
  ⟨by decide,
    c4_authority.1 "User 1,Bob,4821,x,x,0,no,0,1,0,0,0,0" "1" ⟨"Bob", "4821", "A4"⟩ (by decide)⟩

/-- C6 (amended): the parser's output is an ordered list of records each
carrying a name, passcode and authority level taken from some surviving
input line, the authority level drawn from `{None, A1..A8}` — but the id
under which a record was deduplicated is not part of the returned element
(it serves only as the dedup key). -/
theorem c6_output_shape :
    ∀ (lines : List String) (r : ParsedRecord), r ∈ parseLines lines →
      (∃ line, line ∈ lines ∧ ∃ userId, lineToCandidate line = some (userId, r)) ∧
      (r.auth = "None" ∨ ∃ k, 1 ≤ k ∧ k ≤ 8 ∧ r.auth = "A" ++ toString k) := by
  intro lines r hr
  unfold parseLines at hr
  obtain ⟨p, hp, hpr⟩ := List.mem_map.mp hr
  rcases foldl_parseStep_mem lines [] p hp with hfalse | ⟨line, hline, hcand⟩
  · cases hfalse
  · have hcand' : lineToCandidate line = some (p.1, r) := by
      rw [hcand]
      exact congrArg some (Prod.ext rfl hpr)
    refine ⟨⟨line, hline, p.1, hcand'⟩, ?_⟩
    obtain ⟨-, -, ha, -⟩ := lineToCandidate_some hcand'
    rw [ha]
    unfold authFromParts
    have hlen : (((partsOf line).drop 5).take 8).length ≤ 8 := by
      rw [List.length_take]
      exact Nat.min_le_left _ _
    rcases firstAuth_range (((partsOf line).drop 5).take 8) 1 with h' | ⟨k, hk1, hk2, hk3⟩
    · exact Or.inl h'
    · exact Or.inr ⟨k, hk1, by omega, hk3⟩

/-- C6 (witness): the theorem applied to a one-line input; the surviving
record originates from that line and its level is `A1`. -/
theorem c6_witness :
    ((⟨"Alice", "1234", "A1"⟩ : ParsedRecord) ∈ parseLines ["User 7,Alice,1234,x,x,1,0"]) ∧
    ((∃ line, line ∈ ["User 7,Alice,1234,x,x,1,0"] ∧
        ∃ userId, lineToCandidate line = some (userId, ⟨"Alice", "1234", "A1"⟩)) ∧
      ((⟨"Alice", "1234", "A1"⟩ : ParsedRecord).auth = "None" ∨
        ∃ k, 1 ≤ k ∧ k ≤ 8 ∧ (⟨"Alice", "1234", "A1"⟩ : ParsedRecord).auth = "A" ++ toString k)) :=
  ⟨by decide, c6_output_shape ["User 7,Alice,1234,x,x,1,0"] ⟨"Alice", "1234", "A1"⟩ (by decide)⟩

/-- C6 (counterexample to the claim as stated): the parser deduplicates the
line under id `7`, yet the returned element is the bare triple
`(name, passcode, authorityLevel)` — none of its fields contains the id
text `7` at all, so the output does not carry the id. -/
theorem c6_counterexample :
    lineToCandidate "User 7,Alice,1234,x,x,1,0" = some ("7", ⟨"Alice", "1234", "A1"⟩) ∧
    parseLines ["User 7,Alice,1234,x,x,1,0"] = [⟨"Alice", "1234", "A1"⟩] ∧
    strContainsB "Alice" "7" = false ∧
    strContainsB "1234" "7" = false ∧
    strContainsB "A1" "7" = false := by
  decide

/-- C8: the parser fails with the distinguishable `InvalidInput` condition
(`ValueError("Invalid file path")`) exactly when the path does not reference
a readable regular file (modelled by `none`); on every readable file it
returns normally with the parsed list — in particular the empty list when no
candidate record survives, which is therefore distinguishable from the
failure case, and malformed per-line data (ignored or skipped lines) never
causes failure. -/
theorem c8_invalid_input :
    (∀ fs : Option (List String),
        (∃ e, parse_bosch_txt fs = .error e) ↔ fs = none) ∧
    (∀ lines : List String, parse_bosch_txt (some lines) = .ok (parseLines lines)) ∧
    parse_bosch_txt
      (some ["header", "", "User 1,too,short", "User 2,User 2,0,x,x,0,0"]) = .ok [] := by
  refine ⟨?_, fun lines => rfl, ?_⟩
  · intro fs
    cases fs with
    | none =>
      constructor
      · intro _
        rfl
      · intro _
        exact ⟨"Invalid file path", rfl⟩
    | some lines =>
      constructor
      · rintro ⟨e, he⟩
        cases he
      · intro h
        cases h
  · show Except.ok (parseLines ["header", "", "User 1,too,short", "User 2,User 2,0,x,x,0,0"]) =
      Except.ok ([] : List ParsedRecord)
    rw [show parseLines ["header", "", "User 1,too,short", "User 2,User 2,0,x,x,0,0"] = []
      from by decide]

/-- C8 (witness): the theorem applied to the missing-file case. -/
theorem c8_witness :
    ∃ e, parse_bosch_txt none = .error e :=
  (c8_invalid_input.1 none).mpr rfl

/-- C1: every record's name and passcode reach the rendered document through
`html.escape`, unconditionally: for every record of the list the escaped
forms occur in the output and the escaped text contains no markup-capable
character (`<`, `>`, `"`, `'`) at all, so the user-supplied text cannot
introduce markup structure; in particular, whenever the name contains
`<script>`, the escaped name — and hence the document — contains the inert
escaped text `&lt;script&gt;`. -/
theorem c1_escaping :
    ∀ (data : List ParsedRecord) (password : String) (logo_data : Option (String × String))
      (now : String) (r : ParsedRecord), r ∈ data →
      strContainsB (generate_html data password logo_data now) (html_escape r.name) = true ∧
      strContainsB (generate_html data password logo_data now) (html_escape r.passcode) = true ∧
      (html_escape r.name).data.all inertChar = true ∧
      (html_escape r.passcode).data.all inertChar = true ∧
      (strContainsB r.name "<script>" = true →
        strContainsB (generate_html data password logo_data now) "&lt;script&gt;" = true ∧
        strContainsB (html_escape r.name) "&lt;script&gt;" = true) := by
  intro data password logo_data now r hmem
  have hname := generate_html_contains_rows data password logo_data now
    (table_rows_contains hmem (rowHtml_contains_name r))
  have hpass := generate_html_contains_rows data password logo_data now
    (table_rows_contains hmem (rowHtml_contains_passcode r))
  refine ⟨hname, hpass, escapeChars_inert r.name.data, escapeChars_inert r.passcode.data, ?_⟩
  intro hscript
  have hesc : strContainsB (html_escape r.name) "&lt;script&gt;" = true := by
    have h2 := html_escape_contains hscript
    rwa [show html_escape "<script>" = "&lt;script&gt;" from by decide] at h2
  exact ⟨strContainsB_trans hname hesc, hesc⟩

/-- C1 (witness): the theorem applied to a one-record list whose name
contains `<script>`. -/
theorem c1_witness :
    ((⟨"<script>alert(1)", "9 9", "A1"⟩ : ParsedRecord) ∈
      [(⟨"<script>alert(1)", "9 9", "A1"⟩ : ParsedRecord)]) ∧
    strContainsB "<script>alert(1)" "<script>" = true ∧
    (strContainsB (generate_html [⟨"<script>alert(1)", "9 9", "A1"⟩] "pw" none "Oct 12, 2025")
        (html_escape "<script>alert(1)") = true ∧
      strContainsB (generate_html [⟨"<script>alert(1)", "9 9", "A1"⟩] "pw" none "Oct 12, 2025")
        (html_escape "9 9") = true ∧
      (html_escape "<script>alert(1)").data.all inertChar = true ∧
      (html_escape "9 9").data.all inertChar = true) ∧
    (strContainsB (generate_html [⟨"<script>alert(1)", "9 9", "A1"⟩] "pw" none "Oct 12, 2025")
        "&lt;script&gt;" = true ∧
      strContainsB (html_escape "<script>alert(1)") "&lt;script&gt;" = true) := by
  have H := c1_escaping [⟨"<script>alert(1)", "9 9", "A1"⟩] "pw" none "Oct 12, 2025"
    ⟨"<script>alert(1)", "9 9", "A1"⟩ (by decide)
  exact ⟨by decide, by decide, ⟨H.1, H.2.1, H.2.2.1, H.2.2.2.1⟩,
    H.2.2.2.2 (by decide)⟩

/-- C7: restoring a deleted row removes only the `deleted` class, the
`Restore` button form and the editing lock — the `modified` and `added`
classes and all three field values are untouched, so the row returns to its
pre-delete state: `Modified` exactly when it had been edited before the
delete, `Normal` otherwise, and an `Added` row returns to its
`Added`-equivalent state; delete followed by restore is the identity on an
editable row, and an edit made before delete/restore survives with its
value. -/
theorem c7_restore :
    ∀ (r : DocRow) (c ok : Bool) (v : String),
      (r.deleted = true →
        (deleteRowAction r c).deleted = false ∧
        (deleteRowAction r c).modified = r.modified ∧
        (deleteRowAction r c).added = r.added ∧
        (deleteRowAction r c).name = r.name ∧
        (deleteRowAction r c).passcode = r.passcode ∧
        (deleteRowAction r c).auth = r.auth) ∧
      (r.deleted = true → r.added = false →
        stateOf (deleteRowAction r c) =
          (if r.modified then RowState.Modified else RowState.Normal)) ∧
      (r.deleted = true → r.added = true → stateOf (deleteRowAction r c) = RowState.Added) ∧
      (r.deleted = false → r.editable = true → r.btnRestore = false →
        deleteRowAction (deleteRowAction r true) ok = r) ∧
      (r.deleted = false → r.editable = true →
        (deleteRowAction (deleteRowAction (editNameAction r v) true) ok).name = v ∧
        (deleteRowAction (deleteRowAction (editNameAction r v) true) ok).modified = true ∧
        (deleteRowAction (deleteRowAction (editNameAction r v) true) ok).deleted = false) := by
  intro r c ok v
  refine ⟨?_, ?_, ?_, ?_, ?_⟩
  · intro hdel
    simp [deleteRowAction, hdel]
  · intro hdel hadd
    simp [deleteRowAction, hdel, stateOf, hadd]
  · intro hdel hadd
    simp [deleteRowAction, hdel, stateOf, hadd]
  · intro hdel hed hbtn
    cases r
    simp_all [deleteRowAction]
  · intro hdel hed
    simp [editNameAction, deleteRowAction, hdel, hed]

/-- C7 (witness): the theorem applied to a deleted row that had been edited
(`modified` class present): restore yields the `Modified` state with fields
preserved. -/
theorem c7_witness :
    ((⟨"N", "P", "A1", true, true, false, false, true⟩ : DocRow).deleted = true) ∧
    ((deleteRowAction ⟨"N", "P", "A1", true, true, false, false, true⟩ true).deleted = false ∧
      (deleteRowAction ⟨"N", "P", "A1", true, true, false, false, true⟩ true).modified =
        (⟨"N", "P", "A1", true, true, false, false, true⟩ : DocRow).modified ∧
      (deleteRowAction ⟨"N", "P", "A1", true, true, false, false, true⟩ true).added =
        (⟨"N", "P", "A1", true, true, false, false, true⟩ : DocRow).added ∧
      (deleteRowAction ⟨"N", "P", "A1", true, true, false, false, true⟩ true).name =
        (⟨"N", "P", "A1", true, true, false, false, true⟩ : DocRow).name ∧
      (deleteRowAction ⟨"N", "P", "A1", true, true, false, false, true⟩ true).passcode =
        (⟨"N", "P", "A1", true, true, false, false, true⟩ : DocRow).passcode ∧
      (deleteRowAction ⟨"N", "P", "A1", true, true, false, false, true⟩ true).auth =
        (⟨"N", "P", "A1", true, true, false, false, true⟩ : DocRow).auth) :=
  ⟨rfl, (c7_restore ⟨"N", "P", "A1", true, true, false, false, true⟩ true true "x").1 rfl⟩

/-- C9: the renderer is a pure function of the record list, the gate secret,
the branding payload and the formatted timestamp: two runs on identical
inputs with the same timestamp are byte-identical, and for any two
timestamps the outputs share the same text before and after the single
embedded generation-timestamp field. -/
theorem c9_determinism :
    ∀ (data : List ParsedRecord) (password : String) (logo_data : Option (String × String))
      (t1 t2 : String),
      generate_html data password logo_data t1 =
        htmlBeforeTs logo_data ++ t1 ++ htmlAfterTs data password ∧
      generate_html data password logo_data t2 =
        htmlBeforeTs logo_data ++ t2 ++ htmlAfterTs data password ∧
      (t1 = t2 →
        generate_html data password logo_data t1 = generate_html data password logo_data t2) := by
  intro data password logo_data t1 t2
  refine ⟨generate_html_decompose data password logo_data t1,
    generate_html_decompose data password logo_data t2, ?_⟩
  intro h
  rw [h]

/-- C9 (witness): the theorem applied to a concrete input with equal
timestamps. -/
theorem c9_witness :
    ("Oct 12, 2025" : String) = "Oct 12, 2025" ∧
    generate_html [] "" none "Oct 12, 2025" = generate_html [] "" none "Oct 12, 2025" :=
  ⟨rfl, (c9_determinism [] "" none "Oct 12, 2025" "Oct 12, 2025").2.2 rfl⟩

/-- C10: a non-empty gate secret is embedded as the `json.dumps` encoding
of the secret inside `let PASSWORD = …;`, with no HTML escaping applied: for
the secret `</script>` the JSON encoding is the verbatim quoted string, the
document contains `</script>` verbatim at the embedding site, and the JSON
encoding differs from the `html.escape` form the §4.2 guarantee would have
produced. -/
theorem c10_password_embedding :
    ∀ (data : List ParsedRecord) (logo_data : Option (String × String)) (now : String)
      (password : String), password ≠ "" →
      strContainsB (generate_html data password logo_data now)
        ("let PASSWORD = " ++ jsonDumps password ++ ";") = true ∧
      jsonDumps "</script>" = "\"</script>\"" ∧
      strContainsB (generate_html data "</script>" logo_data now) "</script>" = true ∧
      html_escape "</script>" ≠ jsonDumps "</script>" := by
  intro data logo_data now password hpw
  have hpwjs : passwordJs password = jsonDumps password := by
    simp [passwordJs, hpw]
  refine ⟨?_, by decide, ?_, by decide⟩
  · apply strContainsB_of_data
      (seg0.data ++ ((logoHtmlOf logo_data).data ++ (seg1.data ++ (now.data ++
        (seg2.data ++ ((toString data.length).data ++ (seg3.data ++
        ((table_rows data).data ++ seg4a.data))))))))
      seg5a.data
    simp [generate_html, seg4, seg5, hpwjs, List.append_assoc]
  · have hdoc := generate_html_contains_passwordJs data "</script>" logo_data now
    have hsub : strContainsB (passwordJs "</script>") "</script>" = true := by decide
    exact strContainsB_trans hdoc hsub

/-- C10 (witness): the theorem applied to the secret `</script>`. -/
theorem c10_witness :
    ("</script>" : String) ≠ "" ∧
    strContainsB (generate_html [] "</script>" none "Oct 12, 2025")
      ("let PASSWORD = " ++ jsonDumps "</script>" ++ ";") = true :=
  ⟨by decide, (c10_password_embedding [] none "Oct 12, 2025" "</script>" (by decide)).1⟩
